import Mathlib

/-!
Verification development for the text-to-speech page in `src/src/App.js`.

The audio pipeline of the page (WAV container encoding, placeholder
waveform synthesis, and the speak / record / stop orchestration) is
embedded shallowly:

* JavaScript numbers are modelled as exact rationals (`ℚ`); `Math.floor`
  is `Int.floor`, the truncation performed by `DataView.setInt16` is
  truncation toward zero.
* `Math.sin (2 * Math.PI * x)` is abstracted as an arbitrary oscillator
  function `osc : ℚ → ℚ` applied to `x`, and `Math.random()` as an
  arbitrary noise stream, so every synthesis definition stays executable.
* The React component state (`useState` / `useRef` cells) becomes one
  record `AppState`; each event handler of the source becomes a function
  from state to state.  Externally decided outcomes (microphone grant,
  `MediaRecorder.stop` throwing, internal encoding failure) are Boolean
  parameters of those functions.  The asynchronous `MediaRecorder.onstop`
  callback is folded into the transition that calls `MediaRecorder.stop`,
  matching the serialized event model in which the attempt only counts as
  finished after the queued `onstop` handler has run.
-/

namespace TTS

/-! ## Byte-level helpers of the WAV container (App.js lines 157–221) -/

/-- Little-endian bytes of a 16-bit value, as written by
`DataView.setUint16 (…, true)` (the value is taken mod 2^16). -/
def u16le (x : ℕ) : List ℕ := [x % 256, x / 256 % 256]

/-- Little-endian bytes of a 32-bit value, as written by
`DataView.setUint32 (…, true)` (the value is taken mod 2^32). -/
def u32le (x : ℕ) : List ℕ :=
  [x % 256, x / 256 % 256, x / 65536 % 256, x / 16777216 % 256]

/-- Character codes of a string, as produced by the source's
`writeString` helper (`string.charCodeAt(i)` for each position). -/
def asciiBytes (s : String) : List ℕ := s.data.map Char.toNat

/-- Two's-complement little-endian bytes of one 16-bit signed sample, as
written by `DataView.setInt16 (…, true)`. -/
def i16le (v : ℤ) : List ℕ := u16le (v % 65536).toNat

/-- The 44-byte WAV header written by `generateHighQualityAudio`
(App.js lines 167–179): channel count 1, block align 2, byte rate
`sampleRate * 2` are hard-coded exactly as in the source. -/
def wavHeader (numSamples sampleRate : ℕ) : List ℕ :=
  asciiBytes "RIFF" ++ u32le (36 + numSamples * 2) ++ asciiBytes "WAVE" ++
  asciiBytes "fmt " ++ u32le 16 ++ u16le 1 ++ u16le 1 ++ u32le sampleRate ++
  u32le (sampleRate * 2) ++ u16le 2 ++ u16le 16 ++
  asciiBytes "data" ++ u32le (numSamples * 2)

/-- The complete byte buffer built by `generateHighQualityAudio`: the
44-byte header followed by each sample as little-endian int16. -/
def encodeWav (samples : List ℤ) (sampleRate : ℕ) : List ℕ :=
  wavHeader samples.length sampleRate ++ (samples.map i16le).flatten

/-- Modelled from the spec: the canonical 44-byte container header of
§6 — "RIFF", uint32 `36 + dataBytes`, "WAVE", "fmt ", uint32 16,
uint16 1 (PCM), uint16 channel count, uint32 sample rate, uint32
byteRate = sampleRate × channels × 2, uint16 blockAlign = channels × 2,
uint16 16, "data", uint32 dataBytes.  Used only to compare the source's
header against the spec's layout. -/
def canonicalHeader (dataBytes sampleRate channels : ℕ) : List ℕ :=
  asciiBytes "RIFF" ++ u32le (36 + dataBytes) ++ asciiBytes "WAVE" ++
  asciiBytes "fmt " ++ u32le 16 ++ u16le 1 ++ u16le channels ++
  u32le sampleRate ++ u32le (sampleRate * channels * 2) ++
  u16le (channels * 2) ++ u16le 16 ++ asciiBytes "data" ++ u32le dataBytes

/-- Read a little-endian uint16 from a byte list at an offset. -/
def readU16At (bs : List ℕ) (off : ℕ) : ℕ :=
  match bs.drop off with
  | b0 :: b1 :: _ => b0 + 256 * b1
  | _ => 0

/-- Read a little-endian uint32 from a byte list at an offset. -/
def readU32At (bs : List ℕ) (off : ℕ) : ℕ :=
  match bs.drop off with
  | b0 :: b1 :: b2 :: b3 :: _ =>
    b0 + 256 * b1 + 65536 * b2 + 16777216 * b3
  | _ => 0

/-! Basic structural lemmas about the encoded buffer. -/

theorem wavHeader_length (n sr : ℕ) : (wavHeader n sr).length = 44 := rfl

theorem sampleBytes_length (samples : List ℤ) :
    ((samples.map i16le).flatten).length = 2 * samples.length := by
  induction samples with
  | nil => rfl
  | cons a l ih =>
    simp only [List.map_cons, List.flatten_cons, List.length_append, ih,
      List.length_cons, i16le, u16le]
    simp [List.length]
    omega

theorem encodeWav_length (samples : List ℤ) (sr : ℕ) :
    (encodeWav samples sr).length = 44 + 2 * samples.length := by
  rw [encodeWav, List.length_append, wavHeader_length, sampleBytes_length]

/-- The recomposition fact behind each uint32 round trip. -/
theorem u32_recompose (x : ℕ) (h : x < 4294967296) :
    x % 256 + 256 * (x / 256 % 256) + 65536 * (x / 65536 % 256) +
      16777216 * (x / 16777216 % 256) = x := by
  omega

/-- The header the source writes is the spec's canonical layout at
channel count 1. -/
theorem wavHeader_eq_canonical (n sr : ℕ) :
    canonicalHeader (n * 2) sr 1 = wavHeader n sr := by
  simp [canonicalHeader, wavHeader, mul_one]

/-- Everything claim C3 asserts of one encoded buffer, bundled. -/
def wavRoundTrip (samples : List ℤ) (sr : ℕ) : Prop :=
  (encodeWav samples sr).take 44 = canonicalHeader (2 * samples.length) sr 1 ∧
  (wavHeader samples.length sr).length = 44 ∧
  (encodeWav samples sr).length = 44 + 2 * samples.length ∧
  (encodeWav samples sr).drop 44 = (samples.map i16le).flatten ∧
  readU32At (encodeWav samples sr) 4 = 36 + 2 * samples.length ∧
  readU16At (encodeWav samples sr) 20 = 1 ∧
  readU16At (encodeWav samples sr) 22 = 1 ∧
  readU32At (encodeWav samples sr) 24 = sr ∧
  readU16At (encodeWav samples sr) 34 = 16 ∧
  readU32At (encodeWav samples sr) 40 = 2 * samples.length

set_option maxHeartbeats 1000000 in
/-- C3: for every sample sequence, the encoder emits a buffer whose
first 44 bytes are exactly the canonical header (RIFF size, "WAVE",
PCM format chunk with channel count 1, sample rate, byte rate
`sampleRate * 2`, block align 2, bits 16, data chunk size
`2 * len(samples)`) followed by the little-endian int16 samples, and
decoding that header yields back the sample rate, the channel count,
bitsPerSample = 16 and dataBytes. -/
theorem encodeWav_roundTrip (samples : List ℤ) (sr : ℕ)
    (h1 : sr < 4294967296) (h2 : 36 + 2 * samples.length < 4294967296) :
    wavRoundTrip samples sr := by
  have e : 2 * samples.length = samples.length * 2 :=
    Nat.mul_comm 2 samples.length
  have hlen : (wavHeader samples.length sr).length = 44 := rfl
  refine ⟨?_, rfl, encodeWav_length samples sr, rfl, ?_, rfl, rfl, ?_, rfl, ?_⟩
  · rw [e, wavHeader_eq_canonical, encodeWav, ← hlen, List.take_left]
  · have h : readU32At (encodeWav samples sr) 4 =
        (36 + samples.length * 2) % 256 +
        256 * ((36 + samples.length * 2) / 256 % 256) +
        65536 * ((36 + samples.length * 2) / 65536 % 256) +
        16777216 * ((36 + samples.length * 2) / 16777216 % 256) := rfl
    rw [h]; omega
  · have h : readU32At (encodeWav samples sr) 24 =
        sr % 256 + 256 * (sr / 256 % 256) + 65536 * (sr / 65536 % 256) +
        16777216 * (sr / 16777216 % 256) := rfl
    rw [h]; omega
  · have h : readU32At (encodeWav samples sr) 40 =
        samples.length * 2 % 256 + 256 * (samples.length * 2 / 256 % 256) +
        65536 * (samples.length * 2 / 65536 % 256) +
        16777216 * (samples.length * 2 / 16777216 % 256) := rfl
    rw [h]; omega

/-- Witness for C3: the round trip at a concrete two-sample buffer and
the source's sample rate 22050. -/
theorem encodeWav_roundTrip_witness : wavRoundTrip [1, -1] 22050 :=
  encodeWav_roundTrip [1, -1] 22050 (by norm_num) (by norm_num)

/-! ## Waveform synthesis (App.js lines 150–235)

`generateHighQualityAudio` fixes `sampleRate = 22050`, computes
`duration = Math.max(2, Math.min(text.length * 0.15, 30))` and
`numSamples = Math.floor(sampleRate * duration)`, splits the text with
`text.split(" ")`, and fills one 16-bit sample per loop iteration. -/

/-- JavaScript `Math.min` on two (non-NaN) numbers. -/
def jsMin (a b : ℚ) : ℚ := if a ≤ b then a else b

/-- JavaScript `Math.max` on two (non-NaN) numbers. -/
def jsMax (a b : ℚ) : ℚ := if b ≤ a then a else b

theorem jsMin_eq_min (a b : ℚ) : jsMin a b = min a b := by
  rw [jsMin, min_def]

theorem jsMax_eq_max (a b : ℚ) : jsMax a b = max a b := by
  rw [jsMax, max_comm, max_def]

/-- Clamped duration in seconds (App.js line 154); `0.15 = 3/20`. -/
def durationOf (t : String) : ℚ := jsMax 2 (jsMin ((t.length : ℚ) * (3 / 20)) 30)

/-- Total sample count, `Math.floor(sampleRate * duration)`
(App.js line 155). -/
def numSamplesOf (t : String) : ℕ := (⌊(22050 : ℚ) * durationOf t⌋).toNat

/-- JavaScript `text.split(" ")` on a character list: splits at every
single space character, keeps empty fragments, and always returns at
least one element (`"".split(" ")` is `[""]`). -/
def jsSplitSpace : List Char → List (List Char)
  | [] => [[]]
  | c :: cs =>
    match jsSplitSpace cs with
    | [] => [[]]
    | w :: ws => if c = ' ' then [] :: w :: ws else (c :: w) :: ws

/-- The word count the synthesis loop divides by:
`text.split(" ").length` (App.js lines 183–184). -/
def wordCount (t : String) : ℕ := (jsSplitSpace t.data).length

/-- Modelled from the spec: "Text is partitioned into words by
whitespace" (§4.1) — the maximal runs of non-whitespace characters.
Used only to compare the spec's partition against the source's
`split(" ")`. -/
def whitespaceWords (t : String) : List (List Char) :=
  (splitAtWhitespace t.data).filter (fun w => w ≠ [])
where
  splitAtWhitespace : List Char → List (List Char)
    | [] => [[]]
    | c :: cs =>
      match splitAtWhitespace cs with
      | [] => [[]]
      | w :: ws => if c.isWhitespace then [] :: w :: ws else (c :: w) :: ws

/-- Time of sample `i` in seconds, `i / sampleRate` (App.js line 187). -/
def timeAt (i : ℕ) : ℚ := (i : ℚ) / 22050

/-- Time slice of one word, `duration / words.length` (App.js line 184). -/
def wordDurationOf (t : String) : ℚ := durationOf t / (wordCount t : ℚ)

/-- Word index of sample `i`, `Math.floor(time / wordDuration)`
(App.js line 188). -/
def wordIndexAt (t : String) (i : ℕ) : ℤ := ⌊timeAt i / wordDurationOf t⌋

/-- Base frequency of sample `i`, `120 + (wordIndex % 5) * 40`
(App.js line 195). -/
def baseFreqAt (t : String) (i : ℕ) : ℚ :=
  120 + ((wordIndexAt t i % 5 : ℤ) : ℚ) * 40

/-- Truncation toward zero, the conversion `DataView.setInt16` applies
to its (already clamped) argument. -/
def truncQ (q : ℚ) : ℤ := if 0 ≤ q then ⌊q⌋ else ⌈q⌉

/-- The un-noised, un-clamped value of sample `i` (App.js lines
186–211), with `Math.sin (2 * Math.PI * x)` abstracted as `osc x`:
formant1 is `osc (baseFreq * time)`, formant2
`osc (baseFreq * 2.5 * time) * 0.3`, formant3
`osc (baseFreq * 3.5 * time) * 0.1`, and the amplitude envelope is
`Math.sin (wordProgress * Math.PI) * (1 - time / duration) * 0.4`,
i.e. `osc (wordProgress / 2) * (1 - time / duration) * 0.4`. -/
def rawSampleAt (osc : ℚ → ℚ) (t : String) (i : ℕ) : ℚ :=
  let time : ℚ := (i : ℚ) / 22050
  let wd : ℚ := durationOf t / (wordCount t : ℚ)
  let wordIndex : ℤ := ⌊time / wd⌋
  let wordTime : ℚ := time - wd * (wordIndex : ℚ)
  let baseFreq : ℚ := 120 + ((wordIndex % 5 : ℤ) : ℚ) * 40
  let formant1 := osc (baseFreq * time)
  let formant2 := osc (baseFreq * (5 / 2) * time) * (3 / 10)
  let formant3 := osc (baseFreq * (7 / 2) * time) * (1 / 10)
  let wordProgress := wordTime / wd
  let amplitude := osc (wordProgress / 2) * (1 - time / durationOf t) * (2 / 5)
  (formant1 + formant2 + formant3) * amplitude * 32767

/-- Sample `i` after noise, clamping to the int16 range, and the
`setInt16` integer conversion (App.js lines 214–220); `noiseI` stands
for the `Math.random()` draw of this iteration. -/
def sampleAt (osc : ℚ → ℚ) (noiseI : ℚ) (t : String) (i : ℕ) : ℤ :=
  truncQ (max (-32768) (min 32767 (rawSampleAt osc t i + (noiseI - 1 / 2) * 1000)))

/-- The full PCM sample sequence of the synthesized waveform. -/
def synthSamples (osc : ℚ → ℚ) (noise : ℕ → ℚ) (t : String) : List ℤ :=
  (List.range (numSamplesOf t)).map (fun i => sampleAt osc (noise i) t i)

/-! ## Claim C2: duration and sample count -/

theorem durationOf_ge_two (t : String) : 2 ≤ durationOf t := by
  rw [durationOf, jsMax_eq_max]
  exact le_max_left _ _

theorem durationOf_le_thirty (t : String) : durationOf t ≤ 30 := by
  rw [durationOf, jsMax_eq_max, jsMin_eq_min]
  exact max_le (by norm_num) (min_le_right _ _)

/-- C2 counterexample: the claim's scenario fails on the code.  The
text "Hello there friend" has 18 characters, not 19, so its duration
is 2.7 s, not 2.85 s, and its sample count is 59535, not 62842; and at
a genuinely 19-character text the code's `Math.floor` disagrees with
the claimed `round` (62842 vs 62843). -/
theorem duration_scenario_cex :
    "Hello there friend".length = 18 ∧
    durationOf "Hello there friend" ≠ 57 / 20 ∧
    numSamplesOf "Hello there friend" ≠ 62842 ∧
    numSamplesOf "aaaaaaaaaaaaaaaaaaa" = 62842 ∧
    round ((22050 : ℚ) * durationOf "aaaaaaaaaaaaaaaaaaa") = 62843 ∧
    (numSamplesOf "aaaaaaaaaaaaaaaaaaa" : ℤ) ≠
      round ((22050 : ℚ) * durationOf "aaaaaaaaaaaaaaaaaaa") := by
  have h18 : "Hello there friend".length = 18 := rfl
  have h19 : "aaaaaaaaaaaaaaaaaaa".length = 19 := rfl
  have hd18 : durationOf "Hello there friend" = 27 / 10 := by
    rw [durationOf, h18]; norm_num [jsMin, jsMax]
  have hn18 : numSamplesOf "Hello there friend" = 59535 := by
    rw [numSamplesOf, hd18]; norm_num; decide
  have hd19 : durationOf "aaaaaaaaaaaaaaaaaaa" = 57 / 20 := by
    rw [durationOf, h19]; norm_num [jsMin, jsMax]
  have hn19 : numSamplesOf "aaaaaaaaaaaaaaaaaaa" = 62842 := by
    rw [numSamplesOf, hd19]; norm_num; decide
  have hr : round ((22050 : ℚ) * durationOf "aaaaaaaaaaaaaaaaaaa") = 62843 := by
    rw [hd19]; norm_num [round_eq]
  refine ⟨h18, ?_, ?_, hn19, hr, ?_⟩
  · rw [hd18]; norm_num
  · rw [hn18]; norm_num
  · rw [hn19, hr]; norm_num

/-- C2 (amended): duration is `clamp(len * 0.15, 2, 30)` as claimed,
but the sample count is `Math.floor(duration * 22050)`, not `round`;
the synthesized sequence has exactly that many samples, always between
44100 (2 s) and 661500 (30 s); and "Hello there friend" (18
characters) gives duration 2.7 s with 59535 samples in the
exact-rational model. -/
theorem duration_samples_amended (osc : ℚ → ℚ) (noise : ℕ → ℚ) (t : String) :
    durationOf t = max 2 (min ((t.length : ℚ) * (3 / 20)) 30) ∧
    numSamplesOf t = (⌊(22050 : ℚ) * durationOf t⌋).toNat ∧
    (synthSamples osc noise t).length = numSamplesOf t ∧
    44100 ≤ numSamplesOf t ∧ numSamplesOf t ≤ 661500 ∧
    durationOf "Hello there friend" = 27 / 10 ∧
    numSamplesOf "Hello there friend" = 59535 := by
  have hlow : (44100 : ℤ) ≤ ⌊(22050 : ℚ) * durationOf t⌋ := by
    rw [Int.le_floor]
    calc ((44100 : ℤ) : ℚ) = 22050 * 2 := by norm_num
    _ ≤ 22050 * durationOf t := by
        have := durationOf_ge_two t
        nlinarith
  have hhigh : ⌊(22050 : ℚ) * durationOf t⌋ ≤ 661500 := by
    calc ⌊(22050 : ℚ) * durationOf t⌋ ≤ ⌊(661500 : ℚ)⌋ := by
          apply Int.floor_le_floor
          have := durationOf_le_thirty t
          nlinarith
    _ = 661500 := by norm_num
  refine ⟨?_, rfl, ?_, ?_, ?_, ?_, ?_⟩
  · rw [durationOf, jsMax_eq_max, jsMin_eq_min]
  · rw [synthSamples, List.length_map, List.length_range]
  · rw [numSamplesOf]; omega
  · rw [numSamplesOf]; omega
  · rw [durationOf, show "Hello there friend".length = 18 from rfl]
    norm_num [jsMin, jsMax]
  · rw [numSamplesOf, durationOf, show "Hello there friend".length = 18 from rfl]
    norm_num [jsMin, jsMax]
    decide

/-! ## Claim C8: word partition and per-sample structure -/

theorem jsSplitSpace_ne_nil (cs : List Char) : jsSplitSpace cs ≠ [] := by
  induction cs with
  | nil => simp [jsSplitSpace]
  | cons c cs ih =>
    rw [jsSplitSpace]
    cases h : jsSplitSpace cs with
    | nil => simp
    | cons w ws => split_ifs <;> simp

theorem wordCount_pos (t : String) : 0 < wordCount t := by
  rw [wordCount]
  exact List.length_pos.mpr (jsSplitSpace_ne_nil t.data)

/-- C8 counterexample: the source splits on the single character `' '`,
not on whitespace.  On the text `"a\tb"` the spec's whitespace
partition has 2 words, the code's `split(" ")` has 1, so the claimed
time slice `duration / wordCount` would be 1 s while the code's slice
is the whole 2 s duration. -/
theorem words_whitespace_cex :
    wordCount "a\tb" = 1 ∧
    (whitespaceWords "a\tb").length = 2 ∧
    wordDurationOf "a\tb" = 2 ∧
    durationOf "a\tb" / ((whitespaceWords "a\tb").length : ℚ) = 1 ∧
    wordDurationOf "a\tb" ≠
      durationOf "a\tb" / ((whitespaceWords "a\tb").length : ℚ) := by
  have hw : wordCount "a\tb" = 1 := by decide
  have hs : (whitespaceWords "a\tb").length = 2 := by decide
  have hd : durationOf "a\tb" = 2 := by
    rw [durationOf, show "a\tb".length = 3 from rfl]
    norm_num [jsMin, jsMax]
  have hwd : wordDurationOf "a\tb" = 2 := by
    rw [wordDurationOf, hd, hw]; norm_num
  have hq : durationOf "a\tb" / ((whitespaceWords "a\tb").length : ℚ) = 1 := by
    rw [hd, hs]; norm_num
  exact ⟨hw, hs, hwd, hq, by rw [hwd, hq]; norm_num⟩

/-- C8 (amended): the synthesis loop partitions the text with
`split(" ")` (single space, empty fragments kept), whose word count is
never 0; each word gets the equal slice `duration / wordCount`; and
each raw sample is the sum of the three oscillator components
(fundamental at `baseFreq = 120 + (wordIndex mod 5) * 40`, a 2.5×
harmonic scaled 0.3, a 3.5× harmonic scaled 0.1) times the amplitude
envelope. -/
theorem synth_sample_structure (osc : ℚ → ℚ) (t : String) (i : ℕ) :
    0 < wordCount t ∧
    wordDurationOf t = durationOf t / (wordCount t : ℚ) ∧
    baseFreqAt t i = 120 + ((⌊timeAt i / wordDurationOf t⌋ % 5 : ℤ) : ℚ) * 40 ∧
    rawSampleAt osc t i =
      (osc (baseFreqAt t i * timeAt i) +
        osc (baseFreqAt t i * (5 / 2) * timeAt i) * (3 / 10) +
        osc (baseFreqAt t i * (7 / 2) * timeAt i) * (1 / 10)) *
      (osc (((timeAt i - wordDurationOf t * (wordIndexAt t i : ℚ)) /
              wordDurationOf t) / 2) *
        (1 - timeAt i / durationOf t) * (2 / 5)) * 32767 :=
  ⟨wordCount_pos t, rfl, rfl, rfl⟩

/-! ## Orchestrator state (App.js lines 5–24, 86–147, 237–426)

One record per `useState` / `useRef` cell the audio flow touches, plus
the two closure variables of `speak` (`recordingReady`,
`recordingStarted`) that the utterance callbacks capture. -/

/-- Origin of the current artifact. -/
inductive SourceKind
  | captured
  | synthesized
deriving DecidableEq

/-- The payload behind an object URL: the blob's MIME type and bytes,
tagged with where it came from. -/
structure Artifact where
  kind : SourceKind
  mime : String
  bytes : List ℕ
deriving DecidableEq

/-- The two `MediaRecorder` states the source inspects. -/
inductive RecState
  | inactive
  | recording
deriving DecidableEq

/-- The component state. `audioUrl` holds the current artifact
(`none` is the null object URL), `engineSpeaking` is
`synthRef.current.speaking`, `recorder` is `mediaRecorderRef.current`
(`none` when null), `chunks` is `audioChunksRef.current`. -/
structure AppState where
  text : String
  rate : ℚ
  pitch : ℚ
  volume : ℚ
  isSpeaking : Bool
  isPaused : Bool
  isProcessing : Bool
  isRecording : Bool
  recordingError : String
  audioUrl : Option Artifact
  engineSpeaking : Bool
  recorder : Option RecState
  chunks : List (List ℕ)
  recordingReady : Bool
  recordingStarted : Bool
deriving DecidableEq

/-- The request `speak` hands to `synthRef.current.speak` (the
utterance's text, rate, pitch and volume). -/
structure EngineRequest where
  text : String
  rate : ℚ
  pitch : ℚ
  volume : ℚ
deriving DecidableEq

/-- What one call of `speak` did: the state it left, whether it alerted
the user, whether it attempted to arm recording
(`setupAudioRecording`), and the request given to the engine (if any). -/
structure SpeakResult where
  state : AppState
  alerted : Bool
  armAttempted : Bool
  engineCalled : Option EngineRequest
deriving DecidableEq

/-- `setupAudioRecording` (App.js lines 87–147): clears the recording
error and the previous artifact, empties the chunk buffer, then either
gets the microphone and builds an inactive `MediaRecorder` (returning
true) or catches the failure, records the advisory message and returns
false.  `grant` is whether `getUserMedia` succeeds. -/
def setupAudioRecording (s : AppState) (grant : Bool) : AppState × Bool :=
  let s1 := { s with recordingError := "", audioUrl := none, chunks := [] }
  if grant then
    ({ s1 with recorder := some RecState.inactive }, true)
  else
    ({ s1 with
        recordingError := "Audio recording not available. Using fallback audio." },
      false)

/-- `mediaRecorder.onstop` (App.js lines 127–139): concatenate the
accumulated chunks into one `audio/webm` blob, install its URL as the
current artifact, and end the recording flag. -/
def onstopHandler (s : AppState) : AppState :=
  { s with
      audioUrl := some ⟨SourceKind.captured, "audio/webm", s.chunks.flatten⟩,
      isRecording := false }

/-- `generateHighQualityAudio` (App.js lines 150–235) as an artifact:
the synthesized WAV blob, or — when any internal step throws
(`fail`) — the caught-error path's `new Blob([new ArrayBuffer(0)])`,
a zero-byte `audio/wav` blob.  It resolves in both cases; it never
rejects. -/
def generateHighQualityAudio (osc : ℚ → ℚ) (noise : ℕ → ℚ) (t : String)
    (fail : Bool) : Artifact :=
  if fail then ⟨SourceKind.synthesized, "audio/wav", []⟩
  else ⟨SourceKind.synthesized, "audio/wav", encodeWav (synthSamples osc noise t) 22050⟩

/-- `generateFallbackAudio` (App.js lines 343–354): install the
synthesized blob as the current artifact; if even that throws
(`urlFail`), install the ultimate fallback `new Blob([])` of type
`audio/wav`. -/
def generateFallbackAudio (s : AppState) (osc : ℚ → ℚ) (noise : ℕ → ℚ)
    (hqFail urlFail : Bool) : AppState :=
  if urlFail then
    { s with audioUrl := some ⟨SourceKind.synthesized, "audio/wav", []⟩ }
  else
    { s with audioUrl := some (generateHighQualityAudio osc noise s.text hqFail) }

/-- JavaScript `text.trim()`: strip leading and trailing whitespace
from the character list.  (Core `String.trim` is extensionally the
same but is defined by byte-position recursion that resists kernel
evaluation, so the list form is used.) -/
def jsTrim (t : String) : String :=
  String.mk
    (((t.data.dropWhile Char.isWhitespace).reverse.dropWhile
        Char.isWhitespace).reverse)

/-- `speak` (App.js lines 238–340) up to the engine invocation: reject
blank text with an alert; otherwise cancel in-progress speech, release
the previous artifact, set the processing flag, build the utterance
from the unmodified rate / pitch / volume state, attempt
`setupAudioRecording`, and hand the utterance to the engine. -/
def speak (s : AppState) (grant : Bool) : SpeakResult :=
  if jsTrim s.text = "" then ⟨s, true, false, none⟩
  else
    let s1 := if s.engineSpeaking then { s with engineSpeaking := false } else s
    let s2 := { s1 with audioUrl := none, isProcessing := true, recordingError := "" }
    let p := setupAudioRecording s2 grant
    let s3 := { p.1 with recordingReady := p.2, recordingStarted := false }
    ⟨{ s3 with engineSpeaking := true }, false, true,
      some ⟨s.text, s.rate, s.pitch, s.volume⟩⟩

/-- `utterance.onstart` (App.js lines 276–295): mark speaking; if
recording was armed and the recorder is inactive, set the recording
flag and start the recorder; a throwing `start()` (`startThrows`)
leaves `recordingStarted` false (the flag set just before is not
rolled back, exactly as in the source). -/
def onstart (s : AppState) (startThrows : Bool) : AppState :=
  let s1 := { s with isSpeaking := true, isPaused := false }
  if s1.recordingReady = true ∧ s1.recorder = some RecState.inactive then
    if startThrows then { s1 with isRecording := true, recordingStarted := false }
    else
      { s1 with
          isRecording := true,
          recorder := some RecState.recording,
          recordingStarted := true }
  else s1

/-- `utterance.onend` (App.js lines 297–319): clear the playback
flags; if recording was started and the recorder is still recording,
stop it (its `onstop` adopts the captured blob) — falling back to the
synthesized artifact when `stop()` throws — otherwise always generate
the fallback audio. -/
def onend (s : AppState) (osc : ℚ → ℚ) (noise : ℕ → ℚ)
    (stopThrows hqFail urlFail : Bool) : AppState :=
  let s1 := { s with isSpeaking := false, isPaused := false, isProcessing := false }
  if s1.recordingStarted = true ∧ s1.recorder = some RecState.recording then
    if stopThrows then generateFallbackAudio s1 osc noise hqFail urlFail
    else onstopHandler { s1 with recorder := some RecState.inactive }
  else generateFallbackAudio s1 osc noise hqFail urlFail

/-- `utterance.onerror` (App.js lines 321–329): clear the playback
flags and always generate the fallback audio. -/
def onerror (s : AppState) (osc : ℚ → ℚ) (noise : ℕ → ℚ)
    (hqFail urlFail : Bool) : AppState :=
  let s1 := { s with isSpeaking := false, isPaused := false, isProcessing := false }
  generateFallbackAudio s1 osc noise hqFail urlFail

/-- `stop` (App.js lines 370–387): only when the engine is speaking,
cancel it and clear the playback flags; a currently recording recorder
is stopped (its `onstop` then installs the captured blob), otherwise
only the recording flag is cleared. -/
def stop (s : AppState) : AppState :=
  if s.engineSpeaking then
    let s1 := { s with
        engineSpeaking := false, isSpeaking := false,
        isPaused := false, isProcessing := false }
    if s1.recorder = some RecState.recording then
      onstopHandler { s1 with recorder := some RecState.inactive }
    else { s1 with isRecording := false }
  else s

/-- What one call of `downloadAudio` did. -/
inductive DownloadOutcome
  | noAudioAlert
  | downloaded
  | errorAlert
deriving DecidableEq

/-- `downloadAudio` (App.js lines 409–426): with no current artifact,
alert and return; otherwise trigger the download, alerting if the DOM
interaction throws (`dlFail`).  The component state is never written. -/
def downloadAudio (s : AppState) (dlFail : Bool) : AppState × DownloadOutcome :=
  match s.audioUrl with
  | none => (s, DownloadOutcome.noAudioAlert)
  | some _ =>
    (s, if dlFail then DownloadOutcome.errorAlert else DownloadOutcome.downloaded)

/-! ## Concrete states used by witnesses and counterexamples -/

/-- A quiescent state with non-blank text and in-range parameters. -/
def baseState : AppState :=
  { text := "hi", rate := 1, pitch := 1, volume := 1,
    isSpeaking := false, isPaused := false, isProcessing := false,
    isRecording := false, recordingError := "", audioUrl := none,
    engineSpeaking := false, recorder := none, chunks := [],
    recordingReady := false, recordingStarted := false }

/-- Mid-attempt state: engine speaking, recorder recording with one
accumulated chunk. -/
def recordingActiveState : AppState :=
  { baseState with
      isSpeaking := true, isProcessing := true, isRecording := true,
      engineSpeaking := true, recorder := some RecState.recording,
      chunks := [[1, 2, 3]], recordingReady := true, recordingStarted := true }

/-- A state whose rate slider value lies outside the declared range. -/
def highRateState : AppState := { baseState with rate := 3 }

/-- A state whose text is blank after trimming. -/
def blankTextState : AppState := { baseState with text := "   " }

/-! ## Claim C1: every completed attempt ends with exactly one artifact -/

/-- C1: on the engine's playback-ended event the attempt always ends
with exactly one current artifact — the captured blob when recording
was started, the recorder is still recording and its `stop()` does not
throw, and otherwise the synthesized artifact (Synthesizer then
Encoder on the request text); on the playback-error event the
synthesized artifact is always adopted.  In particular neither handler
can leave the artifact slot empty. -/
theorem attempt_completion_artifact (s : AppState) (osc : ℚ → ℚ)
    (noise : ℕ → ℚ) (stopThrows : Bool) :
    ((onend s osc noise stopThrows false false).audioUrl =
      if s.recordingStarted = true ∧ s.recorder = some RecState.recording ∧
          stopThrows = false
      then some ⟨SourceKind.captured, "audio/webm", s.chunks.flatten⟩
      else some ⟨SourceKind.synthesized, "audio/wav",
             encodeWav (synthSamples osc noise s.text) 22050⟩) ∧
    (onerror s osc noise false false).audioUrl =
      some ⟨SourceKind.synthesized, "audio/wav",
        encodeWav (synthSamples osc noise s.text) 22050⟩ ∧
    (onend s osc noise stopThrows false false).audioUrl ≠ none ∧
    (onerror s osc noise false false).audioUrl ≠ none := by
  refine ⟨?_, ?_, ?_, ?_⟩ <;>
    simp only [onend, onerror, generateFallbackAudio, generateHighQualityAudio,
      onstopHandler] <;>
    split_ifs <;> simp_all

/-! ## Claim C4: user stop while recording -/

/-- C4 counterexample: calling `stop()` while speaking with the
recorder recording does not discard the capture and does not clear the
current artifact — the stopped recorder's `onstop` installs the
captured blob as the current artifact. -/
theorem stop_adopts_capture_cex :
    (stop recordingActiveState).audioUrl =
      some ⟨SourceKind.captured, "audio/webm", [1, 2, 3]⟩ ∧
    ¬ (stop recordingActiveState).audioUrl = none := by decide

/-- C4 (amended): `stop()` while the engine is speaking with the
recorder recording cancels playback, clears the playback and
processing flags, stops the recorder, and the recorder's `onstop`
finalizes the captured chunks as the new current artifact — the
capture is adopted, not discarded, and the artifact slot is not
cleared. -/
theorem stop_finalizes_capture (s : AppState)
    (h1 : s.engineSpeaking = true) (h2 : s.recorder = some RecState.recording) :
    (stop s).audioUrl =
      some ⟨SourceKind.captured, "audio/webm", s.chunks.flatten⟩ ∧
    (stop s).isSpeaking = false ∧ (stop s).isPaused = false ∧
    (stop s).isProcessing = false ∧ (stop s).isRecording = false ∧
    (stop s).engineSpeaking = false ∧
    (stop s).recorder = some RecState.inactive ∧
    (stop s).text = s.text := by
  simp [stop, h1, h2, onstopHandler]

/-- Witness for C4's amended theorem at the concrete mid-attempt
state. -/
theorem stop_finalizes_capture_witness :
    (stop recordingActiveState).audioUrl =
      some ⟨SourceKind.captured, "audio/webm",
        recordingActiveState.chunks.flatten⟩ ∧
    (stop recordingActiveState).isSpeaking = false ∧
    (stop recordingActiveState).isPaused = false ∧
    (stop recordingActiveState).isProcessing = false ∧
    (stop recordingActiveState).isRecording = false ∧
    (stop recordingActiveState).engineSpeaking = false ∧
    (stop recordingActiveState).recorder = some RecState.inactive ∧
    (stop recordingActiveState).text = recordingActiveState.text :=
  stop_finalizes_capture recordingActiveState rfl rfl

/-! ## Claim C5: parameters handed to the engine -/

/-- C5 counterexample: `speak` performs no clamping — with the rate
state at 3 the engine receives rate 3, which is outside the declared
range [0.5, 2]. -/
theorem speak_no_clamp_cex :
    (speak highRateState true).engineCalled = some ⟨"hi", 3, 1, 1⟩ ∧
    ¬ ((3 : ℚ) ≤ 2) := by
  refine ⟨by decide, by norm_num⟩

/-- C5 (amended): `speak` hands rate, pitch and volume to the engine
unchanged — no clamping is applied — so the engine receives in-range
values exactly when the state values (constrained only by the slider
markup) are in range. -/
theorem speak_params_passthrough (s : AppState) (grant : Bool)
    (u : EngineRequest) (h : (speak s grant).engineCalled = some u) :
    u.text = s.text ∧ u.rate = s.rate ∧ u.pitch = s.pitch ∧
    u.volume = s.volume ∧
    ((1 / 2 ≤ s.rate ∧ s.rate ≤ 2 ∧ 1 / 2 ≤ s.pitch ∧ s.pitch ≤ 2 ∧
        0 ≤ s.volume ∧ s.volume ≤ 1) →
      (1 / 2 ≤ u.rate ∧ u.rate ≤ 2 ∧ 1 / 2 ≤ u.pitch ∧ u.pitch ≤ 2 ∧
        0 ≤ u.volume ∧ u.volume ≤ 1)) := by
  by_cases ht : jsTrim s.text = ""
  · rw [speak, if_pos ht] at h
    exact absurd h (by simp)
  · rw [speak, if_neg ht] at h
    have hu : u = ⟨s.text, s.rate, s.pitch, s.volume⟩ := (Option.some.inj h).symm
    subst hu
    exact ⟨rfl, rfl, rfl, rfl, fun hr => hr⟩

/-- Witness for C5's amended theorem at the quiescent in-range state. -/
theorem speak_params_passthrough_witness :
    (⟨"hi", 1, 1, 1⟩ : EngineRequest).text = baseState.text ∧
    (⟨"hi", 1, 1, 1⟩ : EngineRequest).rate = baseState.rate ∧
    (⟨"hi", 1, 1, 1⟩ : EngineRequest).pitch = baseState.pitch ∧
    (⟨"hi", 1, 1, 1⟩ : EngineRequest).volume = baseState.volume ∧
    ((1 / 2 ≤ baseState.rate ∧ baseState.rate ≤ 2 ∧
        1 / 2 ≤ baseState.pitch ∧ baseState.pitch ≤ 2 ∧
        0 ≤ baseState.volume ∧ baseState.volume ≤ 1) →
      (1 / 2 ≤ (⟨"hi", 1, 1, 1⟩ : EngineRequest).rate ∧
        (⟨"hi", 1, 1, 1⟩ : EngineRequest).rate ≤ 2 ∧
        1 / 2 ≤ (⟨"hi", 1, 1, 1⟩ : EngineRequest).pitch ∧
        (⟨"hi", 1, 1, 1⟩ : EngineRequest).pitch ≤ 2 ∧
        0 ≤ (⟨"hi", 1, 1, 1⟩ : EngineRequest).volume ∧
        (⟨"hi", 1, 1, 1⟩ : EngineRequest).volume ≤ 1)) :=
  speak_params_passthrough baseState true ⟨"hi", 1, 1, 1⟩ (by decide)

/-! ## Claim C6: stop is idempotent and safe from any state -/

/-- C6: `stop` is idempotent — a second call never changes the state
further — and when the engine is not speaking (nothing active) it is
the identity, not an error. -/
theorem stop_idempotent (s : AppState) :
    stop (stop s) = stop s ∧ (s.engineSpeaking = false → stop s = s) := by
  constructor
  · by_cases h : s.engineSpeaking = true
    · have hs : (stop s).engineSpeaking = false := by
        simp only [stop, if_pos h]
        split_ifs <;> simp [onstopHandler]
      rw [stop, if_neg (by simp [hs])]
    · have h0 : stop s = s := by rw [stop, if_neg h]
      simp only [h0]
  · intro h
    rw [stop, if_neg (by simp [h])]

/-- Witness for C6 at the quiescent state, with the no-op hypothesis
discharged. -/
theorem stop_idempotent_witness :
    stop (stop baseState) = stop baseState ∧ stop baseState = baseState :=
  ⟨(stop_idempotent baseState).1, (stop_idempotent baseState).2 rfl⟩

/-! ## Claim C7: synthesis failure recovery -/

/-- C7 counterexample: the recovery artifact of a failed synthesis is
the zero-byte blob, not an "empty valid-header artifact" — the valid
header for zero samples is the non-empty 44-byte `encodeWav [] 22050`. -/
theorem synthesis_failure_empty_cex :
    (generateHighQualityAudio (fun _ => 0) (fun _ => 0) "hi" true).bytes = [] ∧
    encodeWav [] 22050 ≠ [] ∧
    (encodeWav [] 22050).length = 44 := by
  refine ⟨rfl, by decide, rfl⟩

/-- C7 (amended): synthesis and encoding never raise to the caller —
on an internal failure `generateHighQualityAudio` resolves with a
zero-byte `audio/wav` artifact (no header), and `generateFallbackAudio`
always installs some synthesized artifact, so synthesis is never a
failure point for the attempt. -/
theorem fallback_always_artifact (s : AppState) (osc : ℚ → ℚ)
    (noise : ℕ → ℚ) (hqFail urlFail : Bool) :
    (generateFallbackAudio s osc noise hqFail urlFail).audioUrl ≠ none ∧
    (generateHighQualityAudio osc noise s.text true).bytes = [] ∧
    (generateHighQualityAudio osc noise s.text true).mime = "audio/wav" ∧
    (generateFallbackAudio s osc noise true urlFail).audioUrl =
      some ⟨SourceKind.synthesized, "audio/wav", []⟩ := by
  refine ⟨?_, rfl, rfl, ?_⟩
  · rw [generateFallbackAudio]; split_ifs <;> simp
  · rw [generateFallbackAudio]; split_ifs <;> simp [generateHighQualityAudio]

/-! ## Claim C9: blank text is rejected without starting the attempt -/

/-- C9: with text blank after trimming, `speak` alerts the user and
returns with the state untouched — no engine call, no capture arming,
the previous artifact and all flags unchanged. -/
theorem speak_blank_rejected (s : AppState) (grant : Bool)
    (h : jsTrim s.text = "") :
    speak s grant = ⟨s, true, false, none⟩ := by
  rw [speak, if_pos h]

/-- Witness for C9 at a state whose text is three spaces. -/
theorem speak_blank_rejected_witness :
    speak blankTextState true = ⟨blankTextState, true, false, none⟩ :=
  speak_blank_rejected blankTextState true (by decide)

/-! ## Claim C10: download with no artifact -/

/-- C10: `downloadAudio` with no current artifact only shows the
advisory alert: it returns without raising and leaves the whole
component state — artifact slot and playback flags included —
unchanged. -/
theorem downloadAudio_noArtifact (s : AppState) (dlFail : Bool)
    (h : s.audioUrl = none) :
    downloadAudio s dlFail = (s, DownloadOutcome.noAudioAlert) := by
  rw [downloadAudio, h]

/-- Witness for C10 at the quiescent artifact-free state. -/
theorem downloadAudio_noArtifact_witness :
    downloadAudio baseState true = (baseState, DownloadOutcome.noAudioAlert) :=
  downloadAudio_noArtifact baseState true rfl

end TTS
